import Mathlib

/-!
Shallow embedding of the tmux session controller in
`src/mcp_servers/tmux.py` (class `TmuxMCP`).

The multiplexer (libtmux server/session/window/pane) is the external
collaborator: a `Server` holds live sessions, a `Session` holds windows,
a `Window` holds panes.  A pane carries its metadata strings, its visible
screen lines and its full scrollback lines.  To model the failure
isolation of the all-pane sweep, a pane may be marked so that capturing
its content (`captureErr`) or reading its metadata (`metaErr`) raises;
a raised Python exception is a `PyError` with the exception type name
(`kind`, e.g. "ValueError") and the message.
-/

/-- A raised Python exception: its type name and its message. -/
structure PyError where
  kind : String
  msg : String
deriving DecidableEq, Repr

/-- A tmux pane as observed through libtmux: identifier, metadata
strings, visible screen lines, full scrollback lines, and optional
injected failures for content capture and metadata reads. -/
structure Pane where
  pane_id : String
  pane_index : String
  pane_active : String
  pane_current_command : String
  pane_title : String
  pane_current_path : String
  visible : List String
  scrollback : List String
  input : List String
  captureErr : Option PyError
  metaErr : Option PyError
deriving DecidableEq, Repr

/-- `pane.capture_pane()` (visible lines) or `pane.capture_pane("-")`
(full scrollback); raises the pane's injected capture failure if any. -/
def Pane.capture_pane (p : Pane) (full : Bool) : Except PyError (List String) :=
  match p.captureErr with
  | some e => .error e
  | none => .ok (if full then p.scrollback else p.visible)

/-- `pane.get(key)`: a metadata read on the live pane object; raises the
pane's injected metadata failure if any. -/
def Pane.get (p : Pane) (key : String) : Except PyError String :=
  match p.metaErr with
  | some e => .error e
  | none => .ok (
      if key = "pane_index" then p.pane_index
      else if key = "pane_active" then p.pane_active
      else if key = "pane_current_command" then p.pane_current_command
      else if key = "pane_title" then p.pane_title
      else if key = "pane_current_path" then p.pane_current_path
      else "")

/-- `pane.send_keys(keys, enter=...)`: appends the text, and when
`enter` is true one line-terminator keystroke, to the pane's input
stream. -/
def Pane.send_keys (p : Pane) (keys : String) (enter : Bool) : Pane :=
  { p with input := p.input ++ (if enter then [keys, "Enter"] else [keys]) }

/-- A tmux window: identifier, metadata strings, and its panes. -/
structure Window where
  window_id : String
  window_name : String
  window_index : String
  panes : List Pane
deriving DecidableEq, Repr

/-- A tmux session: its name and its windows. -/
structure Session where
  session_name : String
  windows : List Window
deriving DecidableEq, Repr

/-- `session.panes`: all panes of all windows of the session. -/
def Session.panes (s : Session) : List Pane :=
  (s.windows.map Window.panes).flatten

/-- The live tmux server: its sessions, in enumeration order. -/
structure Server where
  sessions : List Session
deriving DecidableEq, Repr

/-! ## Error values raised by the controller

Each raise site of `TmuxMCP`, with the Python exception type the source
uses and the exact message.  The spec names them `NoSessionError`,
`SessionNotFoundError`, `PaneNotFoundError`, `InvalidArgumentError`. -/

/-- `RuntimeError` raised by `__init__` when the server has no sessions. -/
def noSessionError : PyError :=
  ⟨"RuntimeError", "No tmux sessions found. Start one before using this server."⟩

/-- `ValueError` raised by `__init__` when the named session is absent. -/
def sessionNotFoundError (session_name : String) : PyError :=
  ⟨"ValueError", "tmux session '" ++ session_name ++ "' not found."⟩

/-- `ValueError` raised by the capture and send operations when the pane
does not resolve in the bound session. -/
def paneNotFoundError (pane_id : String) : PyError :=
  ⟨"ValueError", "Pane '" ++ pane_id ++ "' not found."⟩

/-- `ValueError` raised by `dump_all_panes` on a bad `mode`. -/
def invalidModeError : PyError :=
  ⟨"ValueError", "mode must be 'visible' or 'full'"⟩

/-! ## The controller -/

/-- Python truthiness of an `Optional[str]`: `None` and `""` are falsy. -/
def strTruthy : Option String → Bool
  | none => false
  | some s => !s.isEmpty

/-- `TmuxMCP.__init__(session_name)`: binds a session of the server, or
fails.  Returns the bound session together with whether the
multiple-sessions warning was logged. -/
def TmuxMCP.init (server : Server) (session_name : Option String) :
    Except PyError (Session × Bool) :=
  match server.sessions with
  | [] => .error noSessionError
  | first :: rest =>
    if strTruthy session_name then
      let name := session_name.getD ""
      match server.sessions.find? (fun s => s.session_name == name) with
      | none => .error (sessionNotFoundError name)
      | some s => .ok (s, false)
    else
      .ok (first, !rest.isEmpty)

/-- `TmuxMCP.list_window_ids`. -/
def list_window_ids (s : Session) : List String :=
  s.windows.map Window.window_id

/-- `TmuxMCP.list_pane_ids(window_id)`: empty list when the window is
not found, its panes' ids otherwise.  The return type is `List String`:
the operation cannot raise. -/
def list_pane_ids (s : Session) (window_id : String) : List String :=
  match s.windows.find? (fun w => w.window_id == window_id) with
  | none => []
  | some window => window.panes.map Pane.pane_id

/-- `TmuxMCP.capture_visible_pane(pane_id)`. -/
def capture_visible_pane (s : Session) (pane_id : String) : Except PyError String :=
  match s.panes.find? (fun p => p.pane_id == pane_id) with
  | none => .error (paneNotFoundError pane_id)
  | some pane => do
    let lines ← pane.capture_pane false
    pure (String.intercalate "\n" lines)

/-- `TmuxMCP.capture_full_pane(pane_id)`. -/
def capture_full_pane (s : Session) (pane_id : String) : Except PyError String :=
  match s.panes.find? (fun p => p.pane_id == pane_id) with
  | none => .error (paneNotFoundError pane_id)
  | some pane => do
    let lines ← pane.capture_pane true
    pure (String.intercalate "\n" lines)

/-- Replace the pane with the given id everywhere in the session. -/
def Session.updatePane (s : Session) (pane_id : String) (f : Pane → Pane) : Session :=
  { s with windows := s.windows.map (fun w =>
      { w with panes := w.panes.map (fun p =>
          if p.pane_id == pane_id then f p else p) }) }

/-- `TmuxMCP.send_keys(pane_id, keys_to_send, enter)`: resolves the
pane, writes the keys (and `Enter` when requested) into its input
stream, and returns the session after the send together with the pane's
visible contents captured right after. -/
def TmuxMCP.send_keys (s : Session) (pane_id keys_to_send : String)
    (enter : Bool) : Except PyError (Session × String) :=
  match s.panes.find? (fun p => p.pane_id == pane_id) with
  | none => .error (paneNotFoundError pane_id)
  | some pane => do
    let pane := pane.send_keys keys_to_send enter
    let lines ← pane.capture_pane false
    pure (s.updatePane pane_id (fun p => p.send_keys keys_to_send enter),
          String.intercalate "\n" lines)

/-! ## The all-pane sweep -/

/-- One entry of the list `dump_all_panes` returns: either the full
per-pane dict (metadata plus `contents`, no `error`), or the error dict
the broad `except` appends (window identifiers, pane id, the formatted
`error` string, and no `contents`). -/
inductive PaneReport where
  | ok (window_id window_name window_index : String)
      (pane_id pane_index : String) (pane_active : Bool)
      (pane_current_command pane_title pane_current_path : String)
      (contents : String)
  | err (window_id window_name window_index : String)
      (pane_id : String) (error : String)
deriving DecidableEq, Repr

/-- The body of the per-pane `try` in `dump_all_panes`: capture per
`mode`, truncate to the last `max_lines` lines when that is provided and
positive, then read the pane metadata. -/
def dumpPaneTry (window_id window_name window_index : String) (pane : Pane)
    (mode : String) (max_lines : Option Int) : Except PyError PaneReport := do
  let lines ← pane.capture_pane (mode == "full")
  let lines := match max_lines with
    | some m => if m > 0 then lines.drop (lines.length - m.toNat) else lines
    | none => lines
  let contents := String.intercalate "\n" lines
  let pane_index ← pane.get "pane_index"
  let pane_active ← pane.get "pane_active"
  let pane_cmd ← pane.get "pane_current_command"
  let pane_title ← pane.get "pane_title"
  let pane_cwd ← pane.get "pane_current_path"
  pure (.ok window_id window_name window_index pane.pane_id pane_index
    (pane_active == "1") pane_cmd pane_title pane_cwd contents)

/-- One loop iteration of `dump_all_panes`: the `try` body, with any
raised error turned into the error entry (`f"{type(e).__name__}: {e}"`). -/
def dumpPane (window_id window_name window_index : String) (pane : Pane)
    (mode : String) (max_lines : Option Int) : PaneReport :=
  match dumpPaneTry window_id window_name window_index pane mode max_lines with
  | .ok report => report
  | .error e =>
    .err window_id window_name window_index pane.pane_id (e.kind ++ ": " ++ e.msg)

/-- `TmuxMCP.dump_all_panes(mode, max_lines)`: rejects a bad `mode`
before the sweep, then emits one report per pane of every window. -/
def dump_all_panes (s : Session) (mode : String) (max_lines : Option Int) :
    Except PyError (List PaneReport) :=
  if mode ≠ "visible" ∧ mode ≠ "full" then
    .error invalidModeError
  else
    .ok ((s.windows.map (fun w =>
      w.panes.map (fun p =>
        dumpPane w.window_id w.window_name w.window_index p mode max_lines))).flatten)

/-! ## Sample topology used to instantiate the theorems -/

/-- A healthy pane. -/
def paneA : Pane :=
  { pane_id := "%1", pane_index := "0", pane_active := "1",
    pane_current_command := "bash", pane_title := "shell",
    pane_current_path := "/home/user", visible := ["one", "two", "three"],
    scrollback := ["zero", "one", "two", "three"], input := [],
    captureErr := none, metaErr := none }

/-- A pane whose content capture raises. -/
def paneB : Pane :=
  { pane_id := "%2", pane_index := "1", pane_active := "0",
    pane_current_command := "vim", pane_title := "edit",
    pane_current_path := "/tmp", visible := ["v"],
    scrollback := ["v"], input := [],
    captureErr := some ⟨"LibTmuxException", "pane vanished"⟩, metaErr := none }

/-- A window holding the two panes. -/
def winA : Window :=
  { window_id := "@1", window_name := "editor", window_index := "0",
    panes := [paneA, paneB] }

/-- A session holding the window. -/
def sampleSession : Session := { session_name := "alpha", windows := [winA] }

/-! ## Claims -/

/-- C3: for every `mode` outside `{"visible", "full"}`, `dump_all_panes`
fails with `InvalidArgumentError` (the `ValueError` "mode must be
'visible' or 'full'").  The conclusion holds for every session and every
`max_lines` and its right-hand side does not depend on them: the result
is fixed before any window or pane is enumerated or captured, so an
invalid-mode call performs zero pane reads. -/
theorem C3_invalid_mode_fails_fast (mode : String)
    (h : mode ≠ "visible" ∧ mode ≠ "full") :
    ∀ (s : Session) (max_lines : Option Int),
      dump_all_panes s mode max_lines = .error invalidModeError := by
  intro s max_lines
  unfold dump_all_panes
  rw [if_pos h]

/-- Witness for C3 at the concrete mode "screen". -/
theorem C3_witness :
    dump_all_panes sampleSession "screen" (some 2) = .error invalidModeError :=
  C3_invalid_mode_fails_fast "screen" (by decide) sampleSession (some 2)

/-- C5: `list_pane_ids` on a window id that is not found returns the
empty list, and on a found window returns its panes' ids.  The
operation's type is total (`List String`): it never raises. -/
theorem C5_list_pane_ids_lenient (s : Session) (window_id : String) :
    (s.windows.find? (fun w => w.window_id == window_id) = none →
      list_pane_ids s window_id = []) ∧
    (∀ w, s.windows.find? (fun w => w.window_id == window_id) = some w →
      list_pane_ids s window_id = w.panes.map Pane.pane_id) := by
  constructor
  · intro h; unfold list_pane_ids; rw [h]
  · intro w h; unfold list_pane_ids; rw [h]

/-- Witness for C5: a missing and a present window id in the sample. -/
theorem C5_witness :
    list_pane_ids sampleSession "@9" = [] ∧
    list_pane_ids sampleSession "@1" = winA.panes.map Pane.pane_id :=
  ⟨(C5_list_pane_ids_lenient sampleSession "@9").1 (by decide),
   (C5_list_pane_ids_lenient sampleSession "@1").2 winA (by decide)⟩

/-- C2: for a pane id that does not resolve in the bound session,
`capture_visible_pane`, `capture_full_pane` and `send_keys` all fail
with `PaneNotFoundError` (the `ValueError` naming the pane); none
returns an `ok` value, so there is no empty or partial success. -/
theorem C2_missing_pane_is_error (s : Session) (pane_id : String)
    (h : s.panes.find? (fun p => p.pane_id == pane_id) = none) :
    capture_visible_pane s pane_id = .error (paneNotFoundError pane_id) ∧
    capture_full_pane s pane_id = .error (paneNotFoundError pane_id) ∧
    ∀ (keys : String) (enter : Bool),
      TmuxMCP.send_keys s pane_id keys enter = .error (paneNotFoundError pane_id) := by
  refine ⟨?_, ?_, fun keys enter => ?_⟩
  · unfold capture_visible_pane; rw [h]
  · unfold capture_full_pane; rw [h]
  · unfold TmuxMCP.send_keys; rw [h]

/-- Witness for C2 at the unresolvable pane id "%9". -/
theorem C2_witness :
    capture_visible_pane sampleSession "%9" = .error (paneNotFoundError "%9") ∧
    capture_full_pane sampleSession "%9" = .error (paneNotFoundError "%9") ∧
    ∀ (keys : String) (enter : Bool),
      TmuxMCP.send_keys sampleSession "%9" keys enter = .error (paneNotFoundError "%9") :=
  C2_missing_pane_is_error sampleSession "%9" (by decide)

/-- C6 counterexample: the claim as stated fails at two concrete inputs.
With a session name given and zero live sessions, `__init__` raises the
no-session `RuntimeError` (the empty check precedes the name lookup), not
`SessionNotFoundError`; and with the empty string given as the session
name, `__init__` treats it as no name at all (Python truthiness) and
binds the first session instead of failing. -/
theorem C6_counterexample :
    TmuxMCP.init ⟨[]⟩ (some "work") = .error noSessionError ∧
    noSessionError ≠ sessionNotFoundError "work" ∧
    TmuxMCP.init ⟨[sampleSession]⟩ (some "") = .ok (sampleSession, false) :=
  ⟨rfl, by decide, rfl⟩

/-- C6 (amended): construction fails with `NoSessionError` whenever no
live sessions exist, regardless of whether a session name was given; and
it fails with `SessionNotFoundError` naming the requested session when a
nonempty session name is given, at least one live session exists, and no
live session has that name.  In both cases the result is an error: no
controller instance is produced. -/
theorem C6_init_failures :
    (∀ (server : Server) (session_name : Option String), server.sessions = [] →
      TmuxMCP.init server session_name = .error noSessionError) ∧
    (∀ (server : Server) (name : String), server.sessions ≠ [] → name ≠ "" →
      server.sessions.find? (fun s => s.session_name == name) = none →
      TmuxMCP.init server (some name) = .error (sessionNotFoundError name)) := by
  constructor
  · intro server session_name h
    unfold TmuxMCP.init
    rw [h]
  · intro server name hne hname hfind
    have htruthy : strTruthy (some name) = true := by
      unfold strTruthy
      cases h : name.isEmpty
      · simp [h]
      · exact absurd ((String.isEmpty_iff name).mp h) hname
    obtain ⟨first, rest, hs⟩ := List.exists_cons_of_ne_nil hne
    unfold TmuxMCP.init
    rw [hs] at hfind ⊢
    simp [htruthy, hfind]

/-- Witness for C6 at concrete servers. -/
theorem C6_witness :
    TmuxMCP.init ⟨[]⟩ none = .error noSessionError ∧
    TmuxMCP.init ⟨[sampleSession]⟩ (some "beta") = .error (sessionNotFoundError "beta") :=
  ⟨C6_init_failures.1 ⟨[]⟩ none rfl,
   C6_init_failures.2 ⟨[sampleSession]⟩ "beta" (by decide) (by decide) (by decide)⟩

/-- C9 counterexample: `SessionNotFoundError`, `PaneNotFoundError` and
`InvalidArgumentError` are not distinct error kinds a caller can tell
apart — all three are raised as the one generic Python type
`ValueError`. -/
theorem C9_counterexample :
    (sessionNotFoundError "alpha").kind = (paneNotFoundError "%1").kind ∧
    (paneNotFoundError "%1").kind = invalidModeError.kind ∧
    invalidModeError.kind = "ValueError" :=
  ⟨rfl, rfl, rfl⟩

/-- The session-not-found message starts with the letter t. -/
theorem sessionNotFoundError_msg_head (n : String) :
    (sessionNotFoundError n).msg.data.head? = some 't' := by
  show ("tmux session '" ++ n ++ "' not found.").data.head? = some 't'
  rw [String.data_append, String.data_append]
  rfl

/-- The pane-not-found message starts with the letter P. -/
theorem paneNotFoundError_msg_head (p : String) :
    (paneNotFoundError p).msg.data.head? = some 'P' := by
  show ("Pane '" ++ p ++ "' not found.").data.head? = some 'P'
  rw [String.data_append, String.data_append]
  rfl

/-- C9 (amended): only `NoSessionError` has a Python exception type of
its own (`RuntimeError`); `SessionNotFoundError`, `PaneNotFoundError`
and `InvalidArgumentError` are all the generic `ValueError`, so a caller
can tell those three apart only by message text (the messages are
pairwise distinct for all inputs), not by exception type. -/
theorem C9_error_types :
    noSessionError.kind = "RuntimeError" ∧
    (∀ n, (sessionNotFoundError n).kind = "ValueError") ∧
    (∀ p, (paneNotFoundError p).kind = "ValueError") ∧
    invalidModeError.kind = "ValueError" ∧
    noSessionError.kind ≠ invalidModeError.kind ∧
    (∀ n p, (sessionNotFoundError n).msg ≠ (paneNotFoundError p).msg) ∧
    (∀ n, (sessionNotFoundError n).msg ≠ invalidModeError.msg) ∧
    (∀ p, (paneNotFoundError p).msg ≠ invalidModeError.msg) := by
  refine ⟨rfl, fun n => rfl, fun p => rfl, rfl, by decide, ?_, ?_, ?_⟩
  · intro n p h
    have h2 : (sessionNotFoundError n).msg.data.head? =
        (paneNotFoundError p).msg.data.head? := by rw [h]
    rw [sessionNotFoundError_msg_head, paneNotFoundError_msg_head] at h2
    exact absurd h2 (by decide)
  · intro n h
    have h2 : (sessionNotFoundError n).msg.data.head? =
        invalidModeError.msg.data.head? := by rw [h]
    rw [sessionNotFoundError_msg_head] at h2
    exact absurd h2 (by decide)
  · intro p h
    have h2 : (paneNotFoundError p).msg.data.head? =
        invalidModeError.msg.data.head? := by rw [h]
    rw [paneNotFoundError_msg_head] at h2
    exact absurd h2 (by decide)

/-- The sweep's report list has the same length as the flat pane list. -/
theorem length_flatten_map_panes (ws : List Window) (f : Window → Pane → PaneReport) :
    ((ws.map (fun w => w.panes.map (f w))).flatten).length =
    ((ws.map Window.panes).flatten).length := by
  induction ws with
  | nil => rfl
  | cons w ws ih => simp [ih]

/-- C1: for every valid mode, `dump_all_panes` never fails as a whole
(`ok`, whatever per-pane errors occur); its reports are one per pane of
every window, in sweep order; the report count equals the session's
total pane count; and every report is either a success report (with
`contents`) or a per-pane error report — the error branch of the loop
only ever appends a report for the failing pane and continues. -/
theorem C1_sweep_isolation (s : Session) (mode : String) (max_lines : Option Int)
    (h : mode = "visible" ∨ mode = "full") :
    ∃ reports, dump_all_panes s mode max_lines = .ok reports ∧
      reports = (s.windows.map (fun w => w.panes.map (fun p =>
        dumpPane w.window_id w.window_name w.window_index p mode max_lines))).flatten ∧
      reports.length = s.panes.length ∧
      ∀ r ∈ reports,
        (∃ a b c d e f g i j k, r = PaneReport.ok a b c d e f g i j k) ∨
        (∃ a b c d e, r = PaneReport.err a b c d e) := by
  have hcond : ¬(mode ≠ "visible" ∧ mode ≠ "full") := by
    rcases h with h | h <;> simp [h]
  refine ⟨_, ?_, rfl, ?_, ?_⟩
  · unfold dump_all_panes
    rw [if_neg hcond]
  · exact length_flatten_map_panes s.windows
      (fun w p => dumpPane w.window_id w.window_name w.window_index p mode max_lines)
  · intro r hr
    cases r with
    | ok a b c d e f g i j k => exact Or.inl ⟨a, b, c, d, e, f, g, i, j, k, rfl⟩
    | err a b c d e => exact Or.inr ⟨a, b, c, d, e, rfl⟩

/-- Witness for C1: the sample session, where one of the two panes
raises during capture, still yields a complete report list. -/
theorem C1_witness :
    ∃ reports, dump_all_panes sampleSession "visible" none = .ok reports ∧
      reports = (sampleSession.windows.map (fun w => w.panes.map (fun p =>
        dumpPane w.window_id w.window_name w.window_index p "visible" none))).flatten ∧
      reports.length = sampleSession.panes.length ∧
      ∀ r ∈ reports,
        (∃ a b c d e f g i j k, r = PaneReport.ok a b c d e f g i j k) ∨
        (∃ a b c d e, r = PaneReport.err a b c d e) :=
  C1_sweep_isolation sampleSession "visible" none (Or.inl rfl)

/-- A pane whose capture raises, or whose capture succeeds but whose
metadata read raises, yields exactly the error entry of the broad
`except`: window identifiers, pane id, and the formatted error. -/
theorem dumpPane_err_entry (wid wname widx : String) (p : Pane) (mode : String)
    (ml : Option Int) (e : PyError)
    (h : p.captureErr = some e ∨ (p.captureErr = none ∧ p.metaErr = some e)) :
    dumpPane wid wname widx p mode ml =
      .err wid wname widx p.pane_id (e.kind ++ ": " ++ e.msg) := by
  rcases h with h | ⟨h1, h2⟩
  · simp only [dumpPane, dumpPaneTry, Pane.capture_pane, h]
    rfl
  · simp only [dumpPane, dumpPaneTry, Pane.capture_pane, Pane.get, h1, h2]
    rfl

/-- C8: when capture or metadata reading fails for a pane of the bound
session, the sweep still returns `ok` and its output contains, for that
pane, the error report: the window identifiers are preserved, the
`error` field holds the failure's kind and message
(`f"{type(e).__name__}: {e}"`), and the report is the `err` form of
`PaneReport`, which carries no `contents` field. -/
theorem C8_error_report (s : Session) (w : Window) (p : Pane) (mode : String)
    (ml : Option Int) (e : PyError)
    (hw : w ∈ s.windows) (hp : p ∈ w.panes)
    (hmode : mode = "visible" ∨ mode = "full")
    (hfail : p.captureErr = some e ∨ (p.captureErr = none ∧ p.metaErr = some e)) :
    ∃ reports, dump_all_panes s mode ml = .ok reports ∧
      PaneReport.err w.window_id w.window_name w.window_index p.pane_id
        (e.kind ++ ": " ++ e.msg) ∈ reports := by
  have hcond : ¬(mode ≠ "visible" ∧ mode ≠ "full") := by
    rcases hmode with h | h <;> simp [h]
  refine ⟨_, by unfold dump_all_panes; rw [if_neg hcond], ?_⟩
  rw [← dumpPane_err_entry w.window_id w.window_name w.window_index p mode ml e hfail]
  exact List.mem_flatten.mpr
    ⟨_, List.mem_map_of_mem _ hw, List.mem_map_of_mem _ hp⟩

/-- Witness for C8: the failing sample pane's error report appears. -/
theorem C8_witness :
    ∃ reports, dump_all_panes sampleSession "visible" none = .ok reports ∧
      PaneReport.err winA.window_id winA.window_name winA.window_index paneB.pane_id
        ("LibTmuxException" ++ ": " ++ "pane vanished") ∈ reports :=
  C8_error_report sampleSession winA paneB "visible" none
    ⟨"LibTmuxException", "pane vanished"⟩
    (by decide) (by decide) (Or.inl rfl) (Or.inl rfl)

/-- C4: for a pane whose captured content is `lines` and a provided
positive `max_lines = m` with `m < lines.length`, the success report's
contents are exactly the last `m` captured lines in original order
(`lines` splits as `pre ++ kept` with `kept.length = m`); and with
`max_lines` omitted the contents are the full untruncated capture. -/
theorem C4_truncation (wid wname widx : String) (p : Pane) (mode : String)
    (m : Int) (lines : List String)
    (hcap : p.capture_pane (mode == "full") = .ok lines)
    (hmeta : p.metaErr = none)
    (hm : 0 < m) (hK : m.toNat < lines.length) :
    (∃ kept pre,
      dumpPane wid wname widx p mode (some m) =
        .ok wid wname widx p.pane_id p.pane_index (p.pane_active == "1")
          p.pane_current_command p.pane_title p.pane_current_path
          (String.intercalate "\n" kept) ∧
      lines = pre ++ kept ∧ kept.length = m.toNat) ∧
    dumpPane wid wname widx p mode none =
      .ok wid wname widx p.pane_id p.pane_index (p.pane_active == "1")
        p.pane_current_command p.pane_title p.pane_current_path
        (String.intercalate "\n" lines) := by
  constructor
  · refine ⟨lines.drop (lines.length - m.toNat), lines.take (lines.length - m.toNat),
      ?_, (List.take_append_drop _ lines).symm, ?_⟩
    · simp [dumpPane, dumpPaneTry, hcap, Pane.get, hmeta, hm]
      rfl
    · rw [List.length_drop]
      omega
  · simp [dumpPane, dumpPaneTry, hcap, Pane.get, hmeta]
    rfl

/-- Witness for C4 at a three-line pane with `max_lines = 2`. -/
theorem C4_witness :
    (∃ kept pre,
      dumpPane "@1" "editor" "0" paneA "visible" (some 2) =
        .ok "@1" "editor" "0" paneA.pane_id paneA.pane_index (paneA.pane_active == "1")
          paneA.pane_current_command paneA.pane_title paneA.pane_current_path
          (String.intercalate "\n" kept) ∧
      ["one", "two", "three"] = pre ++ kept ∧ kept.length = (2 : Int).toNat) ∧
    dumpPane "@1" "editor" "0" paneA "visible" none =
      .ok "@1" "editor" "0" paneA.pane_id paneA.pane_index (paneA.pane_active == "1")
        paneA.pane_current_command paneA.pane_title paneA.pane_current_path
        (String.intercalate "\n" ["one", "two", "three"]) :=
  C4_truncation "@1" "editor" "0" paneA "visible" 2 ["one", "two", "three"]
    rfl rfl (by decide) (by decide)

/-- A `max_lines` that is not positive is ignored by the per-pane loop
body (the guard `max_lines > 0` fails, so no truncation happens). -/
theorem dumpPane_maxlines_nonpos (wid wname widx : String) (p : Pane) (mode : String)
    (m : Int) (hm : m ≤ 0) :
    dumpPane wid wname widx p mode (some m) = dumpPane wid wname widx p mode none := by
  have hneg : ¬ (0 < m) := by omega
  simp [dumpPane, dumpPaneTry, hneg]

/-- C10: a provided but non-positive `max_lines` (zero or negative)
leaves `dump_all_panes` exactly as if `max_lines` had been omitted — no
failure and no truncation, for every session and mode; and with a valid
mode the call still succeeds. -/
theorem C10_nonpositive_maxlines (s : Session) (mode : String) (m : Int)
    (hm : m ≤ 0) :
    dump_all_panes s mode (some m) = dump_all_panes s mode none ∧
    ((mode = "visible" ∨ mode = "full") →
      ∃ reports, dump_all_panes s mode (some m) = .ok reports) := by
  constructor
  · unfold dump_all_panes
    by_cases hc : mode ≠ "visible" ∧ mode ≠ "full"
    · rw [if_pos hc, if_pos hc]
    · rw [if_neg hc, if_neg hc]
      have hfun : (fun (w : Window) => w.panes.map (fun p =>
            dumpPane w.window_id w.window_name w.window_index p mode (some m))) =
          (fun (w : Window) => w.panes.map (fun p =>
            dumpPane w.window_id w.window_name w.window_index p mode none)) := by
        funext w
        congr 1
        funext p
        exact dumpPane_maxlines_nonpos w.window_id w.window_name w.window_index p mode m hm
      rw [hfun]
  · intro h
    have hcond : ¬(mode ≠ "visible" ∧ mode ≠ "full") := by
      rcases h with h | h <;> simp [h]
    exact ⟨_, by unfold dump_all_panes; rw [if_neg hcond]⟩

/-- Witness for C10 at `max_lines = -3`. -/
theorem C10_witness :
    dump_all_panes sampleSession "full" (some (-3)) = dump_all_panes sampleSession "full" none ∧
    (("full" = "visible" ∨ ("full" : String) = "full") →
      ∃ reports, dump_all_panes sampleSession "full" (some (-3)) = .ok reports) :=
  C10_nonpositive_maxlines sampleSession "full" (-3) (by decide)

/-- C7: for a resolved pane, `send_keys` with `enter = true` (the
Python default) appends the text followed by one `Enter` keystroke to
the pane's input stream, and with `enter = false` appends only the text;
in both cases it returns `ok` with the pane's visible content captured
right after the send. -/
theorem C7_send_keys (s : Session) (pane_id text : String) (p : Pane)
    (hfind : s.panes.find? (fun q => q.pane_id == pane_id) = some p)
    (hcap : p.captureErr = none) :
    (∀ enter, TmuxMCP.send_keys s pane_id text enter =
      .ok (s.updatePane pane_id (fun q => q.send_keys text enter),
           String.intercalate "\n" p.visible)) ∧
    (p.send_keys text true).input = p.input ++ [text, "Enter"] ∧
    (p.send_keys text false).input = p.input ++ [text] := by
  refine ⟨fun enter => ?_, rfl, rfl⟩
  unfold TmuxMCP.send_keys
  rw [hfind]
  simp [Pane.send_keys, Pane.capture_pane, hcap]

/-- Witness for C7 at the healthy sample pane. -/
theorem C7_witness :
    (∀ enter, TmuxMCP.send_keys sampleSession "%1" "ls -la" enter =
      .ok (sampleSession.updatePane "%1" (fun q => q.send_keys "ls -la" enter),
           String.intercalate "\n" paneA.visible)) ∧
    (paneA.send_keys "ls -la" true).input = paneA.input ++ ["ls -la", "Enter"] ∧
    (paneA.send_keys "ls -la" false).input = paneA.input ++ ["ls -la"] :=
  C7_send_keys sampleSession "%1" "ls -la" paneA (by decide) rfl
